import Mathlib

/-!
Verification of the CS108 RFID reader protocol codec (src/cs108.ts).

The TypeScript source manipulates frames as hex strings in which every byte
occupies exactly two hex characters, and every offset used by the code is
even.  We therefore embed frames as lists of bytes (`List Nat`, each entry a
value below 256): the JavaScript `value.substring(2*a, 2*b)` corresponds to
`(value.drop a).take (b - a)` on the byte list, and string concatenation
corresponds to list append.  String comparison against a fixed hex literal
corresponds to list equality against the byte list of the literal.  The mutable
module-level variable `currentDataStream` becomes an explicit state record,
and the observable actions of a call (console output of visual IDs and
errors, BLE writes) become an ordered trace of effects.
-/

namespace CS108

/-- Modelled from the spec: the helper `hexToNumber` is imported from
`../utils`, which is not part of this repository snapshot.  The spec
describes its role as decoding a hex byte string as a big-endian integer
("decode as a big-endian decimal integer"), i.e. the usual positional value
of the byte sequence, most significant byte first. -/
def hexToNumber (bytes : List Nat) : Nat :=
  bytes.foldl (fun acc b => acc * 256 + b) 0

/-- Byte form of the `NOTIFICATION.TRIGGER_PUSHED` hex constant `"A102"`. -/
def TRIGGER_PUSHED : List Nat := [0xA1, 0x02]

/-- Byte form of the `NOTIFICATION.TRIGGER_RELEASED` hex constant `"A103"`. -/
def TRIGGER_RELEASED : List Nat := [0xA1, 0x03]

/-- Byte form of the `EVENT_CODE.TAG_READ` hex constant `"8100"`. -/
def TAG_READ : List Nat := [0x81, 0x00]

/-- Destination code byte for RFID frames (`DESTINATION.RFID = "C2"`). -/
def DESTINATION_RFID : Nat := 0xC2

/-- Destination code byte for notification frames
(`DESTINATION.NOTIFICATION = "D9"`). -/
def DESTINATION_NOTIFICATION : Nat := 0xD9

/-- Byte form of `defaultCommandHeader`: the hex concatenation
`A7 B3 0A C2 82 D9 00 00` of prefix, connection, downlink payload length,
RFID destination, reserved, downlink direction and the two zero CRC bytes. -/
def defaultCommandHeader : List Nat :=
  [0xA7, 0xB3, 0x0A, 0xC2, 0x82, 0xD9, 0x00, 0x00]

/-- Byte form of the `RFID_COMMAND` hex constant `"8002"`. -/
def RFID_COMMAND : List Nat := [0x80, 0x02]

/-- Byte form of `START_INVENTORY = RFID_COMMAND + "700100f00f000000"`. -/
def START_INVENTORY : List Nat :=
  RFID_COMMAND ++ [0x70, 0x01, 0x00, 0xF0, 0x0F, 0x00, 0x00, 0x00]

/-- Byte form of `ABORT_INVENTORY = RFID_COMMAND + "4003000000000000"`. -/
def ABORT_INVENTORY : List Nat :=
  RFID_COMMAND ++ [0x40, 0x03, 0x00, 0x00, 0x00, 0x00, 0x00, 0x00]

/-- The predicate `isNotification`: `value.substring(6, 8) === "D9"`, i.e.
byte 3 of the frame equals the NOTIFICATION destination code.  On a frame
with fewer than 4 bytes the JavaScript substring is shorter than two hex
characters and the comparison is false; `(v.drop 3).take 1` is then `[]`
and the equality is false as well. -/
def isNotification (v : List Nat) : Bool :=
  (v.drop 3).take 1 = [DESTINATION_NOTIFICATION]

/-- The predicate `isRFID`: `value.substring(6, 8) === "C2"`. -/
def isRFID (v : List Nat) : Bool :=
  (v.drop 3).take 1 = [DESTINATION_RFID]

/-- The accessor `getPayload`: `value.substring(16)`, i.e. the bytes from
byte offset 8 onward. -/
def getPayload (v : List Nat) : List Nat :=
  v.drop 8

/-- The accessor `getEventCode`: `value.substring(16, 20)`, i.e. bytes 8
and 9 of the frame. -/
def getEventCode (v : List Nat) : List Nat :=
  (v.drop 8).take 2

/-- The frame built by `SendCommand`:
`fullCommand = defaultCommandHeader + command`. -/
def encodeCommand (command : List Nat) : List Nat :=
  defaultCommandHeader ++ command

/-- The function `extractVIDFromEPC`: takes `value.substring(6, 20)` (hex
characters 6 to 19, i.e. bytes 3 to 9 of the EPC, seven bytes), splits it
into byte pairs via the regex match, reverses the byte order and decodes
the result with `hexToNumber`. -/
def extractVIDFromEPC (value : List Nat) : Nat :=
  hexToNumber (((value.drop 3).take 7).reverse)

/-- A tag record as returned by `extractTagData`: the EPC slice, the
decoded signal-strength byte and the remaining payload bytes. -/
structure TagRecord where
  epc : List Nat
  rssi : Nat
  remainingPayload : List Nat
deriving DecidableEq, Repr

/-- The function `extractTagData` on a payload byte list.  The source
checks `!payload || payload.length < 4` on the hex string (fewer than two
bytes), decodes the first two bytes as the product code, rejects a zero
product code, derives the EPC byte length as `(productCode >> 11) * 2`,
and slices the EPC, the signal-strength byte and the remaining payload
with (total, silently truncating) substring operations. -/
def extractTagData (payload : List Nat) : Except String TagRecord :=
  if payload.length < 2 then
    .error ("Invalid payload")
  else
    let productCodeDecimal := hexToNumber (payload.take 2)
    if productCodeDecimal = 0 then
      .error ("Invalid product code")
    else
      let epcByteLength := (productCodeDecimal >>> 11) * 2
      .ok { epc := (payload.drop 2).take epcByteLength
            rssi := hexToNumber (((payload.drop 2).drop epcByteLength).take 1)
            remainingPayload := ((payload.drop 2).drop epcByteLength).drop 1 }

theorem extractTagData_ok_length {p : List Nat} {r : TagRecord}
    (h : extractTagData p = .ok r) :
    r.remainingPayload.length < p.length := by
  by_cases h1 : p.length < 2
  · simp [extractTagData, h1] at h
  · by_cases h2 : hexToNumber (p.take 2) = 0
    · simp [extractTagData, h1, h2] at h
    · simp [extractTagData, h1, h2] at h
      subst h
      simp only [List.drop_drop, List.length_drop]
      omega

/-- Fuel-indexed form of the `while` loop of `processTagData`.  Each
successful `extractTagData` strictly shortens the payload, so running the
loop with fuel equal to the payload length never exhausts the fuel; the
fuel only makes the recursion structural. -/
def tagLoopF : Nat → List Nat → List Nat × Option String
  | _, [] => ([], none)
  | 0, _ :: _ => ([], none)
  | fuel + 1, a :: l =>
    match extractTagData (a :: l) with
    | .error e => ([], some e)
    | .ok r =>
      let rest := tagLoopF fuel r.remainingPayload
      (extractVIDFromEPC r.epc :: rest.1, rest.2)

/-- The `while` loop of `processTagData`: repeatedly extract a tag record
from the front of the payload, log the visual ID of its EPC, and continue
on the remaining payload; stop normally when the payload is exhausted, or
stop at the thrown error.  Returns the visual IDs logged, in order, and
the error if one was thrown. -/
def tagLoop (p : List Nat) : List Nat × Option String :=
  tagLoopF p.length p

theorem tagLoopF_congr :
    ∀ (f₁ : Nat) {f₂ : Nat} {p : List Nat},
      p.length ≤ f₁ → p.length ≤ f₂ → tagLoopF f₁ p = tagLoopF f₂ p := by
  intro f₁
  induction f₁ with
  | zero =>
    intro f₂ p h1 _
    have hp : p = [] := List.eq_nil_of_length_eq_zero (Nat.le_zero.mp h1)
    subst hp
    cases f₂ <;> rfl
  | succ f ih =>
    intro f₂ p h1 h2
    cases p with
    | nil => cases f₂ <;> rfl
    | cons a l =>
      cases f₂ with
      | zero => simp at h2
      | succ g =>
        show tagLoopF (f + 1) (a :: l) = tagLoopF (g + 1) (a :: l)
        rcases h : extractTagData (a :: l) with e | r
        · simp only [tagLoopF, h]
        · have hlt := extractTagData_ok_length h
          simp only [List.length_cons] at hlt h1 h2
          have hrec : tagLoopF f r.remainingPayload =
              tagLoopF g r.remainingPayload :=
            ih (by omega) (by omega)
          simp only [tagLoopF, h, hrec]

theorem extractTagData_ok_two_le {p : List Nat} {r : TagRecord}
    (h : extractTagData p = .ok r) : 2 ≤ p.length := by
  by_contra hlt
  simp [extractTagData, Nat.lt_of_not_le (fun hle => hlt hle)] at h

theorem tagLoop_cons_ok {p : List Nat} {r : TagRecord}
    (h : extractTagData p = .ok r) :
    tagLoop p = (extractVIDFromEPC r.epc :: (tagLoop r.remainingPayload).1,
                 (tagLoop r.remainingPayload).2) := by
  cases p with
  | nil => simp [extractTagData] at h
  | cons a l =>
    have hlt := extractTagData_ok_length h
    simp only [List.length_cons] at hlt
    have hrec : tagLoopF l.length r.remainingPayload =
        tagLoopF r.remainingPayload.length r.remainingPayload :=
      tagLoopF_congr l.length (by omega) (by omega)
    simp only [tagLoop, List.length_cons, tagLoopF, h, hrec]

theorem tagLoop_cons_error {a : Nat} {l : List Nat} {e : String}
    (h : extractTagData (a :: l) = .error e) :
    tagLoop (a :: l) = ([], some e) := by
  simp only [tagLoop, List.length_cons, tagLoopF, h]

/-- The mutable module state of the source: the buffered data stream
`currentDataStream` (as a byte list). -/
structure RState where
  buffer : List Nat
deriving DecidableEq, Repr

/-- One observable action of a call: a logged visual ID (`console.log("VID: ", ...)`),
a logged caught error, a BLE write of a full command frame
(`writeCharacteristic.writeWithResponse`), or another console message. -/
inductive Effect where
  | vid : Nat → Effect
  | err : String → Effect
  | sent : List Nat → Effect
  | note : String → Effect
deriving DecidableEq, Repr

/-- Does the effect correspond to a BLE write of a command frame? -/
def Effect.isSend : Effect → Bool
  | .sent _ => true
  | _ => false

/-- The function `SendCommand`: with no usable write characteristic it only
logs; otherwise it writes `defaultCommandHeader + command` to the BLE
characteristic. -/
def SendCommand (command : List Nat) (hasWrite : Bool) : List Effect :=
  if hasWrite then
    [.sent (encodeCommand command)]
  else
    [.note ("no writeCharacteristic")]

/-- The function `processTagData`: if the buffered stream is empty, do
nothing; otherwise run the extraction loop on `currentDataStream.substring(36)`
(bytes from offset 18), logging each visual ID, and on a thrown error log
it; in every case the buffer is cleared afterwards. -/
def processTagData (s : RState) : RState × List Effect :=
  if s.buffer = [] then
    (s, [])
  else
    let res := tagLoop (s.buffer.drop 18)
    (⟨[]⟩, res.1.map Effect.vid ++
      (match res.2 with
       | some e => [Effect.err e]
       | none => []))

/-- The function `processCS108Data`, over the decoded frame bytes (the
source first converts the incoming base64 `value` with `base64ToHex`; we
take the decoded byte list directly).  `hasWrite` records whether a usable
`writeCharacteristic` was supplied.  Returns the new module state and the
ordered trace of observable effects of the call. -/
def processCS108Data (s : RState) (v : List Nat) (hasWrite : Bool) :
    RState × List Effect :=
  if isNotification v then
    let flushed := processTagData s
    let payload := getPayload v
    if payload = TRIGGER_PUSHED then
      (flushed.1, flushed.2 ++ [.note ("trigger pushed")] ++
        SendCommand START_INVENTORY hasWrite)
    else if payload = TRIGGER_RELEASED then
      (flushed.1, flushed.2 ++ [.note ("trigger released")] ++
        SendCommand ABORT_INVENTORY hasWrite)
    else
      (flushed.1, flushed.2)
  else if isRFID v then
    let flushed := processTagData s
    let eventCode := getEventCode v
    if eventCode = RFID_COMMAND then
      (flushed.1, flushed.2 ++ [.note ("RFID command confirmation")])
    else if eventCode = TAG_READ then
      (⟨v⟩, flushed.2 ++ [.note ("tag read")])
    else
      (flushed.1, flushed.2)
  else
    (⟨s.buffer ++ v⟩, [.note ("BLE recieved and not processed")])


theorem processTagData_buffer_empty (s : RState) :
    (processTagData s).1.buffer = [] := by
  by_cases hb : s.buffer = [] <;> simp [processTagData, hb]

theorem filter_isSend_map_vid (l : List Nat) :
    (l.map Effect.vid).filter Effect.isSend = [] := by
  induction l with
  | nil => rfl
  | cons a t ih => simp [Effect.isSend, ih]

theorem processTagData_no_send (s : RState) :
    (processTagData s).2.filter Effect.isSend = [] := by
  by_cases hb : s.buffer = []
  · simp [processTagData, hb]
  · simp only [processTagData, if_neg hb]
    rw [List.filter_append, filter_isSend_map_vid]
    rcases (tagLoop (s.buffer.drop 18)).2 with _ | e <;>
      simp [Effect.isSend]

theorem isRFID_not_notification {v : List Nat} (h : isRFID v = true) :
    isNotification v = false := by
  simp only [isRFID, decide_eq_true_eq] at h
  simp [isNotification, h, DESTINATION_RFID, DESTINATION_NOTIFICATION]

/-- Reading of claim C1 as stated by the spec: the visual ID comes from
the sub-range of EPC bytes 3 through 10 inclusive (zero-indexed, eight
bytes), reversed and decoded big-endian. -/
def specVID_bytes3to10 (value : List Nat) : Nat :=
  hexToNumber (((value.drop 3).take 8).reverse)

/-- Reading of claim C1 as amended: the visual ID comes from the sub-range
of EPC bytes 3 through 9 inclusive (zero-indexed, seven bytes, hex
characters 6 to 19 of the EPC string), reversed and decoded big-endian. -/
def specVID_bytes3to9 (value : List Nat) : Nat :=
  hexToNumber (((value.take 10).drop 3).reverse)

/-- C1 counterexample: on an EPC whose byte 10 is nonzero, the visual ID computed by the code (from bytes 3 to 9) differs from the claimed derivation from
bytes 3 to 10. -/
theorem C1_counterexample :
    extractVIDFromEPC (List.replicate 10 0 ++ [1] ++ List.replicate 5 0) ≠
      specVID_bytes3to10 (List.replicate 10 0 ++ [1] ++ List.replicate 5 0) := by
  decide

/-- C1 (amended): for every EPC byte sequence, the visual ID equals the
big-endian decoding of the reversed sub-range of bytes 3 through 9
inclusive (seven bytes), not bytes 3 through 10. -/
theorem C1_amended (value : List Nat) :
    extractVIDFromEPC value = specVID_bytes3to9 value := by
  simp [extractVIDFromEPC, specVID_bytes3to9, List.drop_take]

/-- C2 counterexample: the 4-byte sequence 00 00 00 D9 is shorter than the
8-byte minimum header width, yet frame decoding neither fails nor signals
"unrecognized": the sequence is classified as a NOTIFICATION frame and
fully processed (here it even flushes a non-empty reassembly buffer). -/
theorem C2_counterexample :
    ([0, 0, 0, 0xD9] : List Nat).length < 8 ∧
    isNotification [0, 0, 0, 0xD9] = true ∧
    processCS108Data ⟨[1, 2, 3]⟩ [0, 0, 0, 0xD9] false = (⟨[]⟩, []) := by
  decide

/-- C2 (amended): an inbound byte sequence too short to contain the
destination byte (fewer than 4 bytes) is signalled unrecognized — it
matches neither destination predicate and is appended to the reassembly
buffer as a continuation chunk — and no out-of-range bytes are read (all
accesses are total slices); byte sequences of 4 to 7 bytes whose
destination byte matches a known code are classified and processed like
a full frame, and no truncation error exists anywhere. -/
theorem C2_amended (s : RState) (v : List Nat) (w : Bool)
    (h : v.length < 4) :
    isNotification v = false ∧ isRFID v = false ∧
    processCS108Data s v w =
      (⟨s.buffer ++ v⟩, [Effect.note ("BLE recieved and not processed")]) := by
  have hd : v.drop 3 = [] := by
    apply List.drop_eq_nil_of_le
    omega
  have h1 : isNotification v = false := by simp [isNotification, hd]
  have h2 : isRFID v = false := by simp [isRFID, hd]
  exact ⟨h1, h2, by simp [processCS108Data, h1, h2]⟩

/-- C2 witness: the amended statement at the 1-byte sequence A7. -/
theorem C2_witness :
    ([0xA7] : List Nat).length < 4 ∧
    (isNotification [0xA7] = false ∧ isRFID [0xA7] = false ∧
     processCS108Data ⟨[5]⟩ [0xA7] true =
       (⟨[5, 0xA7]⟩, [Effect.note ("BLE recieved and not processed")])) :=
  ⟨by decide, C2_amended ⟨[5]⟩ [0xA7] true (by decide)⟩

/-- C3: for every opcode byte sequence, the frame built by prepending the
constant command header decodes back to destination = RFID (and not
NOTIFICATION) with payload equal to the original opcode bytes. -/
theorem C3_roundtrip (op : List Nat) :
    isRFID (encodeCommand op) = true ∧
    isNotification (encodeCommand op) = false ∧
    getPayload (encodeCommand op) = op :=
  ⟨rfl, rfl, rfl⟩

/-- C4: a 19-byte payload whose first two bytes are 40 00 decodes product
code 0x4000, the derived identifier length is (0x4000 >>> 11) * 2 = 16
bytes, extraction yields the full 16-byte identifier with empty remainder,
and the extraction loop produces exactly one record. -/
theorem C4_product4000 (p : List Nat)
    (hlen : p.length = 19) (htake : p.take 2 = [0x40, 0x00]) :
    hexToNumber (p.take 2) = 0x4000 ∧
    ((0x4000 : Nat) >>> 11) * 2 = 16 ∧
    extractTagData p =
      .ok ⟨(p.drop 2).take 16, hexToNumber ((p.drop 18).take 1), []⟩ ∧
    ((p.drop 2).take 16).length = 16 ∧
    tagLoop p = ([extractVIDFromEPC ((p.drop 2).take 16)], none) := by
  have hpc : hexToNumber (p.take 2) = 0x4000 := by rw [htake]; rfl
  have hdd : (p.drop 2).drop 16 = p.drop 18 := by
    rw [List.drop_drop]
  have hnil : (p.drop 18).drop 1 = [] := by
    rw [List.drop_drop]
    apply List.drop_eq_nil_of_le
    omega
  have hshift : ((16384 : Nat) >>> 11) * 2 = 16 := by decide
  have hge : ¬ p.length < 2 := by omega
  have hok : extractTagData p =
      .ok ⟨(p.drop 2).take 16, hexToNumber ((p.drop 18).take 1), []⟩ := by
    simp [extractTagData, hge, hpc, hshift, hdd, hnil]
  refine ⟨hpc, by decide, hok, ?_, ?_⟩
  · simp [List.length_take, hlen]
  · rw [tagLoop_cons_ok hok]
    rfl

/-- C4 witness: the statement at the concrete 19-byte payload
40 00 07 ... 07 60. -/
theorem C4_witness :
    (([0x40, 0x00] ++ List.replicate 16 7 ++ [0x60] : List Nat).length = 19 ∧
     ([0x40, 0x00] ++ List.replicate 16 7 ++ [0x60] : List Nat).take 2 =
       [0x40, 0x00]) ∧
    tagLoop ([0x40, 0x00] ++ List.replicate 16 7 ++ [0x60]) =
      ([extractVIDFromEPC
          ((([0x40, 0x00] ++ List.replicate 16 7 ++ [0x60] :
              List Nat).drop 2).take 16)], none) :=
  ⟨⟨by decide, by decide⟩,
   (C4_product4000 ([0x40, 0x00] ++ List.replicate 16 7 ++ [0x60])
     (by decide) (by decide)).2.2.2.2⟩

/-- C5: extraction fails with ("Invalid payload") whenever fewer than two
bytes remain, and with ("Invalid product code") whenever the leading 2-byte
product-code field decodes to zero. -/
theorem C5_errors (p q : List Nat)
    (h1 : p.length < 2) (h2 : 2 ≤ q.length)
    (h3 : hexToNumber (q.take 2) = 0) :
    extractTagData p = .error ("Invalid payload") ∧
    extractTagData q = .error ("Invalid product code") := by
  constructor
  · simp [extractTagData, h1]
  · simp only [extractTagData]
    rw [if_neg (by omega), h3]
    rfl

/-- C5 witness: the statement at the empty payload and at the payload
00 00 05 with zero product code. -/
theorem C5_witness :
    (([] : List Nat).length < 2 ∧ 2 ≤ ([0, 0, 5] : List Nat).length ∧
     hexToNumber (([0, 0, 5] : List Nat).take 2) = 0) ∧
    (extractTagData [] = .error ("Invalid payload") ∧
     extractTagData [0, 0, 5] = .error ("Invalid product code")) :=
  ⟨⟨by decide, by decide, by decide⟩,
   C5_errors [] [0, 0, 5] (by decide) (by decide) (by decide)⟩

/-- C6 counterexample: a buffered batch whose first 19-byte record is
valid and whose trailing byte fails extraction still emits the visual ID of the first
record (as a logged VID effect) before the failure is
detected, so the abort does not suppress records preceding the failure
point. -/
theorem C6_counterexample :
    (processTagData ⟨List.replicate 18 0 ++
        ([0x40, 0x00] ++ List.replicate 16 7 ++ [0x60]) ++ [0x01]⟩).2 =
      [Effect.vid 1978051601041159, Effect.err ("Invalid payload")] ∧
    Effect.vid 1978051601041159 ∈
      (processTagData ⟨List.replicate 18 0 ++
        ([0x40, 0x00] ++ List.replicate 16 7 ++ [0x60]) ++ [0x01]⟩).2 := by
  decide

/-- C6 (amended): when some record of a batch fails extraction, the batch
is aborted at the failure point and the buffer is discarded, but records
preceding the failure point have already been emitted: if the first
record of the buffered payload extracts successfully and the rest of the
loop fails, the effect trace is the visual ID of the first record, then the
visual IDs of the further records extracted before the failure, then the
error, and the buffer is cleared. -/
theorem C6_amended (s : RState) (p : List Nat) (r : TagRecord) (e : String)
    (hp : s.buffer.drop 18 = p) (hok : extractTagData p = .ok r)
    (herr : (tagLoop r.remainingPayload).2 = some e)
    (hne : s.buffer ≠ []) :
    (processTagData s).2 =
      Effect.vid (extractVIDFromEPC r.epc) ::
        ((tagLoop r.remainingPayload).1.map Effect.vid ++ [Effect.err e]) ∧
    (processTagData s).1.buffer = [] := by
  constructor
  · simp only [processTagData, if_neg hne, hp, tagLoop_cons_ok hok, herr]
    simp
  · exact processTagData_buffer_empty s

/-- C6 witness: the amended statement at a concrete batch of one valid
19-byte record followed by a failing 1-byte tail. -/
theorem C6_witness :
    extractTagData ([0x40, 0x00] ++ List.replicate 16 7 ++ [0x60] ++ [0x01]) =
      .ok ⟨List.replicate 16 7, 96, [0x01]⟩ ∧
    ((processTagData ⟨List.replicate 18 0 ++
        ([0x40, 0x00] ++ List.replicate 16 7 ++ [0x60] ++ [0x01])⟩).2 =
      Effect.vid (extractVIDFromEPC (List.replicate 16 7)) ::
        ((tagLoop [0x01]).1.map Effect.vid ++ [Effect.err ("Invalid payload")]) ∧
     (processTagData ⟨List.replicate 18 0 ++
        ([0x40, 0x00] ++ List.replicate 16 7 ++ [0x60] ++ [0x01])⟩).1.buffer = []) :=
  ⟨by rfl,
   C6_amended _ ([0x40, 0x00] ++ List.replicate 16 7 ++ [0x60] ++ [0x01])
     ⟨List.replicate 16 7, 96, [0x01]⟩ ("Invalid payload")
     (by decide) (by rfl) (by decide) (by decide)⟩

/-- C7: after an extraction failure (an error effect in the flush trace)
the reassembly buffer is empty, and the failure does not propagate: the
next frame is processed exactly as from a fresh empty-buffer state. -/
theorem C7_after_failure (s : RState) (e : String) (v : List Nat) (w : Bool)
    (hmem : Effect.err e ∈ (processTagData s).2) :
    (processTagData s).1.buffer = [] ∧
    processCS108Data (processTagData s).1 v w = processCS108Data ⟨[]⟩ v w := by
  by_cases hb : s.buffer = []
  · simp [processTagData, hb] at hmem
  · have h1 : (processTagData s).1 = ⟨[]⟩ := by
      simp [processTagData, hb]
    rw [h1]
    exact ⟨rfl, rfl⟩

/-- C7 witness: the statement at a buffered batch whose payload has a
zero product code; the flush fails, the buffer is empty afterwards, and
the next frame is processed as from the fresh state. -/
theorem C7_witness :
    Effect.err ("Invalid product code") ∈
      (processTagData ⟨List.replicate 18 0 ++ [0, 0]⟩).2 ∧
    ((processTagData ⟨List.replicate 18 0 ++ [0, 0]⟩).1.buffer = [] ∧
     processCS108Data (processTagData ⟨List.replicate 18 0 ++ [0, 0]⟩).1
         [1, 2, 3] false =
       processCS108Data ⟨[]⟩ [1, 2, 3] false) :=
  ⟨by decide,
   C7_after_failure ⟨List.replicate 18 0 ++ [0, 0]⟩ ("Invalid product code")
     [1, 2, 3] false (by decide)⟩

/-- C8: for a NOTIFICATION frame whose payload is the trigger-pushed
code, with a usable write channel, the buffered bytes are first flushed
to the extractor (the flush trace precedes the dispatch in the effect
list and the buffer ends empty) and exactly one command frame is sent:
the start-inventory command. -/
theorem C8_trigger_pushed (s : RState) (v : List Nat)
    (hn : isNotification v = true) (hp : getPayload v = TRIGGER_PUSHED) :
    processCS108Data s v true =
      ((processTagData s).1,
       (processTagData s).2 ++
         [Effect.note ("trigger pushed"),
          Effect.sent (encodeCommand START_INVENTORY)]) ∧
    (processCS108Data s v true).2.filter Effect.isSend =
      [Effect.sent (encodeCommand START_INVENTORY)] ∧
    (processCS108Data s v true).1.buffer = [] := by
  have heq : processCS108Data s v true =
      ((processTagData s).1,
       (processTagData s).2 ++
         [Effect.note ("trigger pushed"),
          Effect.sent (encodeCommand START_INVENTORY)]) := by
    simp [processCS108Data, hn, hp, SendCommand]
  refine ⟨heq, ?_, ?_⟩
  · rw [heq]
    simp only [List.filter_append, processTagData_no_send]
    simp [Effect.isSend]
  · rw [heq]
    exact processTagData_buffer_empty s

/-- C8 witness: the statement at a trigger-pushed notification frame with
a non-empty buffered tag batch. -/
theorem C8_witness :
    isNotification [0, 0, 0, 0xD9, 0, 0, 0, 0, 0xA1, 0x02] = true ∧
    getPayload [0, 0, 0, 0xD9, 0, 0, 0, 0, 0xA1, 0x02] = TRIGGER_PUSHED ∧
    (processCS108Data
        ⟨List.replicate 18 0 ++ [0x40, 0x00] ++ List.replicate 16 7 ++ [0x60]⟩
        [0, 0, 0, 0xD9, 0, 0, 0, 0, 0xA1, 0x02] true).2.filter Effect.isSend =
      [Effect.sent (encodeCommand START_INVENTORY)] :=
  ⟨by decide, by decide,
   (C8_trigger_pushed
     ⟨List.replicate 18 0 ++ [0x40, 0x00] ++ List.replicate 16 7 ++ [0x60]⟩
     [0, 0, 0, 0xD9, 0, 0, 0, 0, 0xA1, 0x02] (by decide) (by decide)).2.1⟩

/-- C9 counterexample: an RFID frame whose event code is the generic
command opcode does change the state when the buffer is non-empty: the
flush performed before the acknowledgment switch clears the buffer (and
emits the buffered record), so the reassembly buffer is not left
unchanged. -/
theorem C9_counterexample :
    isRFID [0, 0, 0, 0xC2, 0, 0, 0, 0, 0x80, 0x02] = true ∧
    getEventCode [0, 0, 0, 0xC2, 0, 0, 0, 0, 0x80, 0x02] = RFID_COMMAND ∧
    (processCS108Data
        ⟨List.replicate 18 0 ++ [0x40, 0x00] ++ List.replicate 16 7 ++ [0x60]⟩
        [0, 0, 0, 0xC2, 0, 0, 0, 0, 0x80, 0x02] true).1 ≠
      ⟨List.replicate 18 0 ++ [0x40, 0x00] ++ List.replicate 16 7 ++ [0x60]⟩ := by
  decide

/-- C9 (amended): an RFID frame whose event code equals the generic
command opcode is treated as an acknowledgment after the flush that every
RFID frame first triggers: the effect trace is the flush trace followed
only by the confirmation log, no command is sent, and the resulting
buffer is empty (so the buffer is unchanged only when it was already
empty). -/
theorem C9_ack (s : RState) (v : List Nat) (w : Bool)
    (hr : isRFID v = true) (he : getEventCode v = RFID_COMMAND) :
    processCS108Data s v w =
      ((processTagData s).1,
       (processTagData s).2 ++ [Effect.note ("RFID command confirmation")]) ∧
    (processCS108Data s v w).1.buffer = [] ∧
    (processCS108Data s v w).2.filter Effect.isSend = [] := by
  have hn : isNotification v = false := isRFID_not_notification hr
  have heq : processCS108Data s v w =
      ((processTagData s).1,
       (processTagData s).2 ++ [Effect.note ("RFID command confirmation")]) := by
    simp [processCS108Data, hn, hr, he]
  refine ⟨heq, ?_, ?_⟩
  · rw [heq]
    exact processTagData_buffer_empty s
  · rw [heq]
    simp only [List.filter_append, processTagData_no_send]
    simp [Effect.isSend]

/-- C9 witness: the amended statement at a concrete acknowledgment frame
and an empty starting buffer. -/
theorem C9_witness :
    isRFID [0, 0, 0, 0xC2, 0, 0, 0, 0, 0x80, 0x02] = true ∧
    getEventCode [0, 0, 0, 0xC2, 0, 0, 0, 0, 0x80, 0x02] = RFID_COMMAND ∧
    (processCS108Data ⟨[]⟩ [0, 0, 0, 0xC2, 0, 0, 0, 0, 0x80, 0x02] true).1.buffer
      = [] :=
  ⟨by decide, by decide,
   (C9_ack ⟨[]⟩ [0, 0, 0, 0xC2, 0, 0, 0, 0, 0x80, 0x02] true
     (by decide) (by decide)).2.1⟩

/-- C10: a payload with at least two bytes and a nonzero product code is
extracted without error even when fewer bytes remain than the derived
identifier length plus the signal-strength byte require: the identifier
slice is silently truncated to the bytes available, the signal-strength
slice may be empty, and the remainder is empty. -/
theorem C10_truncation (p : List Nat) (L : Nat)
    (hL : L = (hexToNumber (p.take 2) >>> 11) * 2)
    (h2 : 2 ≤ p.length) (hpc : hexToNumber (p.take 2) ≠ 0)
    (hshort : p.length < 2 + L + 1) :
    extractTagData p =
      .ok ⟨(p.drop 2).take L, hexToNumber (((p.drop 2).drop L).take 1), []⟩ ∧
    ((p.drop 2).take L).length = p.length - 2 ∧
    p.length - 2 ≤ L := by
  have hnil : ((p.drop 2).drop L).drop 1 = [] := by
    simp only [List.drop_drop]
    apply List.drop_eq_nil_of_le
    omega
  refine ⟨?_, ?_, by omega⟩
  · simp [extractTagData, hpc, ← hL, hnil, show ¬ p.length < 2 by omega]
    omega
  · simp only [List.length_take, List.length_drop]
    omega

/-- C10 witness: the statement at the 3-byte payload 40 00 01, whose
derived identifier length is 16 bytes. -/
theorem C10_witness :
    (16 : Nat) = (hexToNumber (([0x40, 0x00, 0x01] : List Nat).take 2) >>> 11) * 2 ∧
    2 ≤ ([0x40, 0x00, 0x01] : List Nat).length ∧
    hexToNumber (([0x40, 0x00, 0x01] : List Nat).take 2) ≠ 0 ∧
    ([0x40, 0x00, 0x01] : List Nat).length < 2 + 16 + 1 ∧
    (extractTagData [0x40, 0x00, 0x01] =
      .ok ⟨(([0x40, 0x00, 0x01] : List Nat).drop 2).take 16,
           hexToNumber (((([0x40, 0x00, 0x01] : List Nat).drop 2).drop 16).take 1),
           []⟩ ∧
     ((([0x40, 0x00, 0x01] : List Nat).drop 2).take 16).length =
       ([0x40, 0x00, 0x01] : List Nat).length - 2 ∧
     ([0x40, 0x00, 0x01] : List Nat).length - 2 ≤ 16) :=
  ⟨by decide, by decide, by decide, by decide,
   C10_truncation [0x40, 0x00, 0x01] 16 (by decide) (by decide)
     (by decide) (by decide)⟩

end CS108
